import Mathlib

/-!
Shallow embedding of rag_app's query-to-result pipeline, from the active
revision of `backend/llm_service.py` (class `RAGService`) together with the
HTTP entry point `backend/main.py` (`search_people`).  External collaborators
(the Chroma vector store, the Gemini generator and the SQLite record store)
are parameters of the embedded functions, exactly at the call boundaries the
source uses.  Python strings are Lean `String`s; Python `json.loads` is
embedded as an executable JSON parser; Python truthiness on JSON values is
made explicit.
-/

set_option autoImplicit false

namespace RagApp

/-! ### Character and string helpers (Python `str` operations on ASCII text) -/

/-- Python `str.strip()` whitespace set, restricted to ASCII (the repository
only manipulates ASCII query and completion text). -/
def isPySpace (c : Char) : Bool :=
  c = ' ' || c = '\t' || c = '\n' || c = '\r' || c = Char.ofNat 11 || c = Char.ofNat 12

/-- Python `str.strip()`. -/
def pyStrip (s : String) : String :=
  ⟨((s.data.dropWhile isPySpace).reverse.dropWhile isPySpace).reverse⟩

/-- `needle.isPrefixOf hay` on strings, via the character lists. -/
def strStarts (needle hay : String) : Bool :=
  needle.data.isPrefixOf hay.data

/-- Python `needle in hay` substring test. -/
def listContainsSub (needle : List Char) : List Char → Bool
  | [] => needle.isEmpty
  | c :: cs => needle.isPrefixOf (c :: cs) || listContainsSub needle cs

/-- Python `needle in hay` on strings. -/
def strContains (needle hay : String) : Bool :=
  listContainsSub needle.data hay.data

/-- Python `str.lower()` restricted to ASCII. -/
def pyLower (s : String) : String :=
  ⟨s.data.map Char.toLower⟩

/-- A regex word character (`\w`) over the ASCII range: letters, digits, `_`. -/
def isWordChar (c : Char) : Bool :=
  c.isAlphanum || c = '_'

/-- Whether the tail list starts at a right word boundary (`\b` after a match
ending in a word character): end of string or a non-word character. -/
def rightBoundary : List Char → Bool
  | [] => true
  | c :: _ => !isWordChar c

/-- Helper for `containsWord`: `prev` records whether the character before the
current position is a word character. -/
def containsWordAux (w : List Char) : List Char → Bool → Bool
  | [], _ => false
  | c :: cs, prev =>
    (!prev && w.isPrefixOf (c :: cs) && rightBoundary ((c :: cs).drop w.length))
      || containsWordAux w cs (isWordChar c)

/-- Python `re.search(r'\b' + re.escape(w) + r'\b', s)` for an alias `w` made
of word characters: `w` occurs in `s` delimited by word boundaries. -/
def containsWord (w s : String) : Bool :=
  containsWordAux w.data s.data false

/-! ### JSON values and Python truthiness -/

/-- A JSON value as produced by Python's `json.loads`.  Numbers keep their
source lexeme (no claim depends on numeric magnitude); objects keep their
key/value pairs in parse order. -/
inductive Json where
  | null : Json
  | bool : Bool → Json
  | num : String → Json
  | str : String → Json
  | arr : List Json → Json
  | obj : List (String × Json) → Json
  deriving Repr, Inhabited

/-- Whether a JSON number lexeme denotes a nonzero value: some significant
digit before the exponent marker, or one of the non-standard literals
`NaN` / `Infinity` / `-Infinity` that Python's `json` accepts. -/
def numNonzero (lex : String) : Bool :=
  (lex.data.takeWhile (fun c => c ≠ 'e' && c ≠ 'E')).any
      (fun c => '1' ≤ c && c ≤ '9')
    || lex = "NaN" || lex = "Infinity" || lex = "-Infinity"

/-- Python truthiness (`if not x`) of a decoded JSON value: `None`, `False`,
zero, and empty strings/lists/dicts are falsy. -/
def truthy : Json → Bool
  | .null => false
  | .bool b => b
  | .num lex => numNonzero lex
  | .str s => !s.isEmpty
  | .arr xs => !xs.isEmpty
  | .obj kvs => !kvs.isEmpty

/-- Python `dict.get(k)` on a decoded JSON object: with duplicate keys,
`json.loads` keeps the last occurrence. -/
def jget (kvs : List (String × Json)) (k : String) : Option Json :=
  kvs.foldl (fun acc p => if p.1 = k then some p.2 else acc) none

/-- Python `dict.get(k, default)` on a decoded JSON object. -/
def jgetD (kvs : List (String × Json)) (k : String) (d : Json) : Json :=
  (jget kvs k).getD d

/-! ### The JSON parser (`json.loads`)

A recursive-descent parser over the character list, structurally recursive on
a fuel argument so that every definition reduces in the kernel.  The fuel
passed by `parseJson` is generous enough for any input (each unit of fuel is
consumed only when the parser descends, and every descent step follows the
consumption of at least one input character out of at most two descents). -/

/-- JSON token whitespace (`json.loads` inter-token whitespace set). -/
def jSkipWs : List Char → List Char
  | [] => []
  | c :: cs => if c = ' ' || c = '\t' || c = '\n' || c = '\r' then jSkipWs cs else c :: cs

/-- Value of a hexadecimal digit, written over the character's code point:
codes 48-57 are `0`-`9`, codes 97-102 are `a`-`f`, codes 65-70 are `A`-`F`. -/
def hexVal (c : Char) : Option Nat :=
  let n := c.toNat
  if 48 ≤ n ∧ n ≤ 57 then some (n - 48)
  else if 97 ≤ n ∧ n ≤ 102 then some (n - 87)
  else if 65 ≤ n ∧ n ≤ 70 then some (n - 55)
  else none

/-- Single-character JSON string escapes. -/
def escChar : Char → Option Char
  | '"' => some '"'
  | '\\' => some '\\'
  | '/' => some '/'
  | 'b' => some (Char.ofNat 8)
  | 'f' => some (Char.ofNat 12)
  | 'n' => some '\n'
  | 'r' => some '\r'
  | 't' => some '\t'
  | _ => none

/-- Parse the body of a JSON string after the opening quote, returning the
decoded characters and the remaining input after the closing quote.  `\uXXXX`
escapes are decoded as individual code units (surrogate halves fall back to
`Char.ofNat`'s default; no claim exercises them).  Raw control characters are
rejected, as in Python's strict mode. -/
def parseJStr : List Char → Option (List Char × List Char)
  | [] => none
  | '"' :: cs => some ([], cs)
  | '\\' :: cs =>
    match cs with
    | [] => none
    | 'u' :: cs2 =>
      match cs2 with
      | h1 :: h2 :: h3 :: h4 :: cs3 =>
        match hexVal h1, hexVal h2, hexVal h3, hexVal h4 with
        | some a, some b, some c, some d =>
          match parseJStr cs3 with
          | some (content, rest) =>
            some (Char.ofNat (((a * 16 + b) * 16 + c) * 16 + d) :: content, rest)
          | none => none
        | _, _, _, _ => none
      | _ => none
    | e :: cs2 =>
      match escChar e with
      | some ec =>
        match parseJStr cs2 with
        | some (content, rest) => some (ec :: content, rest)
        | none => none
      | none => none
  | c :: cs =>
    if c.toNat < 32 then none
    else
      match parseJStr cs with
      | some (content, rest) => some (c :: content, rest)
      | none => none

/-- Scan an optional fractional part (`.digits`). -/
def scanFrac : List Char → Option (List Char × List Char)
  | '.' :: cs =>
    let ds := cs.takeWhile Char.isDigit
    if ds.isEmpty then none else some ('.' :: ds, cs.drop ds.length)
  | cs => some ([], cs)

/-- Scan an optional exponent part (`[eE][+-]?digits`). -/
def scanExp : List Char → Option (List Char × List Char)
  | c :: cs =>
    if c = 'e' || c = 'E' then
      let (sgn, cs1) :=
        match cs with
        | s :: cs1 => if s = '+' || s = '-' then ([s], cs1) else ([], cs)
        | [] => ([], cs)
      let ds := cs1.takeWhile Char.isDigit
      if ds.isEmpty then none else some (c :: (sgn ++ ds), cs1.drop ds.length)
    else some ([], c :: cs)
  | [] => some ([], [])

/-- Scan a JSON number lexeme starting at the current position; returns the
lexeme characters and the remaining input. -/
def scanNumber (cs : List Char) : Option (List Char × List Char) :=
  let (sgn, cs1) :=
    match cs with
    | '-' :: r => (['-'], r)
    | _ => ([], cs)
  match cs1 with
  | c :: r =>
    if c = '0' then
      match scanFrac r with
      | some (frac, r2) =>
        match scanExp r2 with
        | some (ex, r3) => some (sgn ++ [c] ++ frac ++ ex, r3)
        | none => none
      | none => none
    else if c.isDigit then
      let ds := cs1.takeWhile Char.isDigit
      let r1 := cs1.drop ds.length
      match scanFrac r1 with
      | some (frac, r2) =>
        match scanExp r2 with
        | some (ex, r3) => some (sgn ++ ds ++ frac ++ ex, r3)
        | none => none
      | none => none
    else none
  | [] => none

/-- Parser mode: a plain value, or the element/member loop of an array or
object with the members accumulated so far. -/
inductive PMode where
  | val : PMode
  | arrStart : List Json → PMode
  | objStart : List (String × Json) → PMode

/-- Consume an exact literal word. -/
def expectLit (lit : List Char) (cs : List Char) : Option (List Char) :=
  if lit.isPrefixOf cs then some (cs.drop lit.length) else none

/-- The recursive descent core of `json.loads`.  In mode `.val` it parses one
JSON value; in mode `.arrStart acc` (resp. `.objStart acc`) it parses the rest
of an array (resp. object) whose opening bracket and members `acc` have
already been consumed. -/
def parseF : Nat → PMode → List Char → Option (Json × List Char)
  | 0, _, _ => none
  | fuel + 1, .val, cs =>
    match jSkipWs cs with
    | [] => none
    | 'n' :: r => (expectLit ['u', 'l', 'l'] r).map (fun r2 => (Json.null, r2))
    | 't' :: r => (expectLit ['r', 'u', 'e'] r).map (fun r2 => (Json.bool true, r2))
    | 'f' :: r => (expectLit ['a', 'l', 's', 'e'] r).map (fun r2 => (Json.bool false, r2))
    | 'N' :: r => (expectLit ['a', 'N'] r).map (fun r2 => (Json.num "NaN", r2))
    | 'I' :: r =>
      (expectLit ['n', 'f', 'i', 'n', 'i', 't', 'y'] r).map
        (fun r2 => (Json.num "Infinity", r2))
    | '-' :: 'I' :: r =>
      (expectLit ['n', 'f', 'i', 'n', 'i', 't', 'y'] r).map
        (fun r2 => (Json.num "-Infinity", r2))
    | '"' :: r =>
      match parseJStr r with
      | some (content, rest) => some (Json.str ⟨content⟩, rest)
      | none => none
    | '[' :: r => parseF fuel (.arrStart []) r
    | '{' :: r => parseF fuel (.objStart []) r
    | c :: r =>
      match scanNumber (c :: r) with
      | some (lex, rest) => some (Json.num ⟨lex⟩, rest)
      | none => none
  | fuel + 1, .arrStart acc, cs =>
    match jSkipWs cs with
    | ']' :: rest => if acc.isEmpty then some (Json.arr [], rest) else none
    | cs1 =>
      match parseF fuel .val cs1 with
      | none => none
      | some (v, rest) =>
        match jSkipWs rest with
        | ',' :: rest2 => parseF fuel (.arrStart (acc ++ [v])) rest2
        | ']' :: rest2 => some (Json.arr (acc ++ [v]), rest2)
        | _ => none
  | fuel + 1, .objStart acc, cs =>
    match jSkipWs cs with
    | '}' :: rest => if acc.isEmpty then some (Json.obj [], rest) else none
    | '"' :: r =>
      match parseJStr r with
      | none => none
      | some (key, rest) =>
        match jSkipWs rest with
        | ':' :: rest2 =>
          match parseF fuel .val rest2 with
          | none => none
          | some (v, rest3) =>
            match jSkipWs rest3 with
            | ',' :: rest4 => parseF fuel (.objStart (acc ++ [(⟨key⟩, v)])) rest4
            | '}' :: rest4 => some (Json.obj (acc ++ [(⟨key⟩, v)]), rest4)
            | _ => none
        | _ => none
    | _ => none

/-- Python `json.loads`: parse one JSON value and require only whitespace
after it. -/
def parseJson (s : String) : Option Json :=
  match parseF (4 * s.length + 16) .val s.data with
  | some (v, rest) => if (jSkipWs rest).isEmpty then some v else none
  | none => none

/-! ### Generator output handling (`RAGService.search`, lines 490-506)

The raw completion is stripped, an optional leading ` ```json ` fence and
trailing ` ``` ` fence are removed, the remainder is parsed with `json.loads`,
and a top-level object is normalized to a one-element list while any other
non-list value becomes the empty list. -/

/-- `needle` is a suffix of `hay` (Python `str.endswith`). -/
def strEnds (needle hay : String) : Bool :=
  needle.data.isSuffixOf hay.data

/-- The fence-stripping prelude of the output parser: `strip()`, drop a
leading ````` ```json `````, drop a trailing ````` ``` `````, `strip()` again
(lines 491-496). -/
def stripFences (s : String) : String :=
  let t := pyStrip s
  let t := if strStarts "```json" t then ⟨t.data.drop 7⟩ else t
  let t := if strEnds "```" t then ⟨t.data.take (t.data.length - 3)⟩ else t
  pyStrip t

/-- Normalization of the decoded completion (lines 505-506): a list is kept,
a single object becomes a one-element list, anything else becomes `[]`. -/
def normalizeMatches : Json → List Json
  | .arr xs => xs
  | .obj kvs => [.obj kvs]
  | _ => []

/-! ### The data model -/

/-- A value stored in a SQLite row: `NULL`, an integer, or text.  Result
fields hold either such a stored value or a string default, so defaults are
embedded as `vtext`. -/
inductive SqlVal where
  | vnull : SqlVal
  | vint : Int → SqlVal
  | vtext : String → SqlVal
  deriving Repr, DecidableEq, Inhabited

/-- A row of the `people` table as returned by `sqlite_utils` (a dict keyed
by column name). -/
abbrev Row := List (String × SqlVal)

/-- Python `row.get(k, d)` on a row dict. -/
def rowGet (row : Row) (k : String) (d : SqlVal) : SqlVal :=
  match row.find? (fun p => p.1 = k) with
  | some p => p.2
  | none => d

/-- A document returned by the vector store's `similarity_search`: the
rendered page content plus the relevant metadata projections
(`metadata.get('id')`, `metadata.get('location')`). -/
structure Doc where
  id : Option String
  location : Option String
  content : String
  deriving Repr, DecidableEq, Inhabited

/-- The compiled result dict built at lines 519-538, with the `provenance`
and `full_details` sub-dicts flattened into named fields.  `id` and
`match_explanation` hold decoded JSON values because they are copied from the
untrusted generator output. -/
structure ResultR where
  id : Json
  founder_name : SqlVal
  role : SqlVal
  company : SqlVal
  location : SqlVal
  match_explanation : Json
  matched_on_fields : String
  prov_csv_id : Json
  fd_idea : SqlVal
  fd_about : SqlVal
  fd_keywords : SqlVal
  fd_linked_in : SqlVal
  fd_notes : SqlVal
  fd_stage : SqlVal
  deriving Repr, Inhabited

/-! ### Filter extraction (`RAGService._parse_location`, lines 413-429) -/

/-- `RAGService.AVAILABLE_LOCATIONS` in source order. -/
def AVAILABLE_LOCATIONS : List String :=
  ["San Francisco, USA", "New York, USA", "London, UK", "Berlin, Germany",
   "Bangalore, India", "Singapore, Singapore", "Toronto, Canada", "Paris, France"]

/-- `RAGService.LOCATION_MAPPING` in source (dict insertion) order. -/
def LOCATION_MAPPING : List (String × String) :=
  [("ny", "New York, USA"),
   ("new york", "New York, USA"),
   ("sf", "San Francisco, USA"),
   ("san francisco", "San Francisco, USA"),
   ("london", "London, UK"),
   ("bangalore", "Bangalore, India"),
   ("blr", "Bangalore, India"),
   ("sg", "Singapore, Singapore"),
   ("singapore", "Singapore, Singapore"),
   ("toronto", "Toronto, Canada"),
   ("paris", "Paris, France"),
   ("berlin", "Berlin, Germany")]

/-- `RAGService._parse_location`: lowercase the query, first return any exact
canonical location occurring as a substring, then the canonical value of the
first alias occurring as a whole word; otherwise `None`.  The query string
itself is not modified. -/
def parse_location (q : String) : Option String :=
  let lq := pyLower q
  match AVAILABLE_LOCATIONS.find? (fun loc => strContains (pyLower loc) lq) with
  | some loc => some loc
  | none => (LOCATION_MAPPING.find? (fun p => containsWord p.1 lq)).map Prod.snd

/-! ### The search pipeline (`RAGService.search`, lines 441-546) -/

/-- The two distinguishable exceptions `search` can raise: the
not-initialized guard at line 443 ("RAG Service not initialized. Check
logs.") and the catch-all re-raise at line 546 ("RAG search failed: ..."),
which fires when the loop body itself raises (e.g. `match.get` on a non-dict
element). -/
inductive SearchEx where
  | notInit : SearchEx
  | failed : SearchEx
  deriving Repr, DecidableEq

/-- `k` passed to `similarity_search` (line 293 / line 452). -/
def TOP_K_DOCUMENTS : Nat := 20

/-- The vector store boundary: `similarity_search(query_text, k)` as an
opaque collaborator returning ranked documents. -/
abbrev Retriever := String → Nat → List Doc

/-- The generator boundary: `rag_chain.invoke({"query": .., "context": ..})`
as an opaque collaborator; it receives the query and the candidate documents
(the source serializes the documents to `context_json`, an injective
projection) and returns the raw completion text. -/
abbrev Generator := String → List Doc → String

/-- The record-store boundary: `_get_full_record` (lines 431-439) opens a
fresh connection and looks the key up in `people`, returning `None` on any
lookup failure.  Keys are decoded JSON values since the generator output
supplies them. -/
abbrev Store := Json → Option Row

/-- The argument passed to `similarity_search` at line 452: the original
query string, unmodified — `search` builds no cleaned/residual query. -/
def retrievalQuery (q : String) : String := q

/-- The post-retrieval location filtering block (lines 456-469): keep the
documents whose `location` metadata equals the filter; when none match, fall
back to the first 10 unfiltered documents. -/
def filterStep (location_filter : Option String) (docs : List Doc) : List Doc :=
  match location_filter with
  | none => docs
  | some loc =>
    let filtered := docs.filter (fun d => d.location == some loc)
    if filtered.isEmpty then docs.take 10 else filtered

/-- One iteration of the compilation loop (lines 510-539) on a decoded object
element: fetch `csv_id`, skip if falsy or missing, skip if the record store
does not resolve it (or resolves it to an empty, hence falsy, dict), else
build the result dict with the documented string defaults. -/
def compileOne (store : Store) (kvs : List (String × Json)) : Option ResultR :=
  match jget kvs "csv_id" with
  | none => none
  | some v =>
    if !truthy v then none
    else
      match store v with
      | none => none
      | some row =>
        if row.isEmpty then none
        else
          some
            { id := v
              founder_name := rowGet row "founder_name" (.vtext "N/A")
              role := rowGet row "role" (.vtext "N/A")
              company := rowGet row "company" (.vtext "N/A")
              location := rowGet row "location" (.vtext "N/A")
              match_explanation :=
                jgetD kvs "match_explanation" (.str "Match found based on profile.")
              matched_on_fields := "idea, about, keywords, location"
              prov_csv_id := v
              fd_idea := rowGet row "idea" (.vtext "")
              fd_about := rowGet row "about" (.vtext "")
              fd_keywords := rowGet row "keywords" (.vtext "")
              fd_linked_in := rowGet row "linked_in" (.vtext "#")
              fd_notes := rowGet row "notes" (.vtext "")
              fd_stage := rowGet row "stage" (.vtext "") }

/-- The compilation loop over the (already truncated) match list.  A non-dict
element makes `match.get` raise `AttributeError`, which the outer handler at
line 544 converts into the "RAG search failed" exception. -/
def compileLoop (store : Store) : List Json → Except SearchEx (List ResultR)
  | [] => .ok []
  | m :: rest =>
    match m with
    | .obj kvs =>
      match compileOne store kvs with
      | none => compileLoop store rest
      | some r => (compileLoop store rest).map (fun rs => r :: rs)
    | _ => .error .failed

/-- `RAGService.search` (lines 441-546): guard on initialization, extract the
location filter, retrieve candidates with the original query, apply the
location filtering block, short-circuit on an empty candidate set, invoke the
generator, parse its output (a parse failure yields `[]`, line 503), and
compile the first 5 matches. -/
def search (is_initialized : Bool) (q : String) (retriever : Retriever)
    (gen : Generator) (store : Store) : Except SearchEx (List ResultR) :=
  if !is_initialized then .error .notInit
  else
    let location_filter := parse_location q
    let retrieved := retriever (retrievalQuery q) TOP_K_DOCUMENTS
    let docs := filterStep location_filter retrieved
    if docs.isEmpty then .ok []
    else
      let raw := gen q docs
      match parseJson (stripFences raw) with
      | none => .ok []
      | some j => compileLoop store ((normalizeMatches j).take 5)

/-! ### The HTTP entry point (`backend/main.py`, `search_people`) -/

/-- An error surfaced by the endpoint: the 400 raised for a falsy (empty)
query string, or the 500 wrapping any exception from `search`. -/
inductive ApiError where
  | badRequest : String → ApiError
  | internal : String → ApiError
  deriving Repr, DecidableEq

/-- The message carried by each `search` exception. -/
def exMessage : SearchEx → String
  | .notInit => "RAG Service not initialized. Check logs."
  | .failed => "RAG search failed"

/-- `search_people` (`backend/main.py` lines 33-48): reject a falsy (empty)
query with 400 before calling the service, otherwise forward to
`rag_service.search` and wrap any exception into a 500. -/
def search_people (is_initialized : Bool) (q : String) (retriever : Retriever)
    (gen : Generator) (store : Store) : Except ApiError (List ResultR) :=
  if q = "" then .error (.badRequest "Query cannot be empty")
  else
    match search is_initialized q retriever gen store with
    | .ok rs => .ok rs
    | .error e => .error (.internal (exMessage e))

/-! ### Startup (`RAGService.__init__` and its helpers, lines 316-374) -/

/-- The environment `__init__` observes: whether the Chroma directory and the
SQLite file exist, the document count of the loaded collection, the row count
of the `people` table (`none` when the table itself is missing, which makes
the `count` query raise), and whether an API key is found. -/
structure Env where
  chroma_db_exists : Bool
  chroma_count : Nat
  sqlite_exists : Bool
  people_table : Option Nat
  api_key : Bool
  deriving Repr, DecidableEq

/-- The `is_initialized` flag computed by `__init__` (lines 316-335):
`_load_vector_store` raises iff the Chroma directory is missing (the document
count is only printed, line 365); `_load_sqlite_db_path` raises iff the
SQLite file is missing or the `people` table is absent (the row count is only
printed, line 374); `_setup_llm_chain` raises iff no API key is found.  Any
raise is caught and leaves `is_initialized = False`. -/
def initService (e : Env) : Bool :=
  if !e.chroma_db_exists then false
  else if !e.sqlite_exists then false
  else
    match e.people_table with
    | none => false
    | some _ => e.api_key

/-! ### Request-scoped state -/

/-- The service attributes observable across requests that `search` can read:
the initialization flag and the stored database path.  (The collaborator
handles are modeled as the function parameters of `search`.) -/
structure ServiceState where
  is_initialized : Bool
  db_path : Option String
  deriving Repr, DecidableEq

/-- `RAGService.search` as a state transformer on the service instance: the
method body contains no assignment to `self`, so the resulting state is the
input state, made explicit by threading it through. -/
def searchSt (st : ServiceState) (q : String) (retriever : Retriever)
    (gen : Generator) (store : Store) :
    Except SearchEx (List ResultR) × ServiceState :=
  (search st.is_initialized q retriever gen store, st)

/-! ### Test fixtures: concrete collaborator stubs used in closed theorems -/

/-- A retrieved document whose metadata location is New York. -/
def nyDoc : Doc := ⟨some "p1", some "New York, USA", "profile text p1"⟩

/-- A retrieved document whose metadata location is Berlin. -/
def berlinDoc : Doc := ⟨some "p2", some "Berlin, Germany", "profile text p2"⟩

/-- The stored `people` row for id `p2`: a Berlin founder at stage `growth`. -/
def berlinRow : Row :=
  [("founder_name", .vtext "Bob"), ("location", .vtext "Berlin, Germany"),
   ("stage", .vtext "growth")]

/-- A deterministic stub generator that always returns one well-formed match
naming id `p2`. -/
def stubGen : Generator :=
  fun _ _ => "[\x7b\"csv_id\": \"p2\", \"match_explanation\": \"great\"\x7d]"

/-- A stub record store resolving only id `p2`, to `berlinRow`. -/
def stubStore : Store :=
  fun j =>
    match j with
    | .str "p2" => some berlinRow
    | _ => none

/-- The result record the pipeline compiles for a `p2` match against
`stubStore`. -/
def berlinResult : ResultR :=
  { id := .str "p2", founder_name := .vtext "Bob", role := .vtext "N/A",
    company := .vtext "N/A", location := .vtext "Berlin, Germany",
    match_explanation := .str "great",
    matched_on_fields := "idea, about, keywords, location",
    prov_csv_id := .str "p2", fd_idea := .vtext "", fd_about := .vtext "",
    fd_keywords := .vtext "", fd_linked_in := .vtext "#", fd_notes := .vtext "",
    fd_stage := .vtext "growth" }

/-- The result record compiled for a `p2` match that carries no explanation
field: the explanation falls back to the generic placeholder. -/
def berlinNoExpl : ResultR :=
  { berlinResult with match_explanation := .str "Match found based on profile." }

/-- Whether none of the canonical location strings occurs as a substring of
the (lowercased) query — the guard under which the alias table is consulted
at all. -/
def noExactLocation (lq : String) : Bool :=
  AVAILABLE_LOCATIONS.all (fun loc => !strContains (pyLower loc) lq)

/-! ## Theorems -/

/-- **C1** (counterexample).  The claimed filter re-validation invariant fails
on the code: on the query `"founders in ny"` the location filter
`"New York, USA"` is active and the retrieved candidates are all New York
documents, yet a generated match whose identifier resolves to a record
located in Berlin with stage `growth` is **returned**, not dropped — the
compilation loop (lines 508-542) re-validates neither stage nor location, and
no stage filter is ever extracted. -/
theorem C1_counterexample :
    parse_location "founders in ny" = some "New York, USA"
    ∧ search true "founders in ny" (fun _ _ => [nyDoc]) stubGen stubStore
        = .ok [berlinResult]
    ∧ berlinResult.location = .vtext "Berlin, Germany"
    ∧ berlinResult.location ≠ .vtext "New York, USA"
    ∧ berlinResult.fd_stage = .vtext "growth" :=
  ⟨rfl, rfl, rfl, by decide, rfl⟩

/-- **C1** (amended).  The pipeline extracts no stage filter and performs no
filter re-validation at compilation: every generated match whose identifier
is non-empty and resolves to a non-empty record-store row is returned, with
location and stage copied from the stored row unconditionally — whatever
filter was active during retrieval. -/
theorem C1_amended (store : Store) (id expl : String) (row : Row)
    (hid : id ≠ "") (hrow : row ≠ [])
    (hstore : store (.str id) = some row) :
    compileOne store [("csv_id", .str id), ("match_explanation", .str expl)]
      = some
          { id := .str id
            founder_name := rowGet row "founder_name" (.vtext "N/A")
            role := rowGet row "role" (.vtext "N/A")
            company := rowGet row "company" (.vtext "N/A")
            location := rowGet row "location" (.vtext "N/A")
            match_explanation := .str expl
            matched_on_fields := "idea, about, keywords, location"
            prov_csv_id := .str id
            fd_idea := rowGet row "idea" (.vtext "")
            fd_about := rowGet row "about" (.vtext "")
            fd_keywords := rowGet row "keywords" (.vtext "")
            fd_linked_in := rowGet row "linked_in" (.vtext "#")
            fd_notes := rowGet row "notes" (.vtext "")
            fd_stage := rowGet row "stage" (.vtext "") } := by
  have hne : (String.isEmpty id) = false :=
    Bool.eq_false_iff.mpr (fun hb => hid ((String.isEmpty_iff id).mp hb))
  have hre : row.isEmpty = false := by
    simp [List.isEmpty_eq_false, hrow]
  simp [compileOne, jget, jgetD, truthy, hne, hre, hstore]

/-- Witness for `C1_amended` at a concrete store, id and row. -/
theorem C1_amended_witness :
    compileOne stubStore [("csv_id", .str "p2"), ("match_explanation", .str "great")]
      = some
          { id := .str "p2"
            founder_name := rowGet berlinRow "founder_name" (.vtext "N/A")
            role := rowGet berlinRow "role" (.vtext "N/A")
            company := rowGet berlinRow "company" (.vtext "N/A")
            location := rowGet berlinRow "location" (.vtext "N/A")
            match_explanation := .str "great"
            matched_on_fields := "idea, about, keywords, location"
            prov_csv_id := .str "p2"
            fd_idea := rowGet berlinRow "idea" (.vtext "")
            fd_about := rowGet berlinRow "about" (.vtext "")
            fd_keywords := rowGet berlinRow "keywords" (.vtext "")
            fd_linked_in := rowGet berlinRow "linked_in" (.vtext "#")
            fd_notes := rowGet berlinRow "notes" (.vtext "")
            fd_stage := rowGet berlinRow "stage" (.vtext "") } :=
  C1_amended stubStore "p2" "great" berlinRow (by decide) (by decide) rfl

/-- **C2** (counterexample).  With the location filter `"New York, USA"`
active and a retrieved candidate set containing no matching document, the
retrieval stage does **not** yield the empty candidate set: the filtering
block (lines 456-469) falls back to the first 10 unfiltered candidates and
the pipeline goes on to return a non-empty result list. -/
theorem C2_counterexample :
    parse_location "founders in ny" = some "New York, USA"
    ∧ List.filter (fun d => d.location == some "New York, USA") [berlinDoc] = []
    ∧ filterStep (some "New York, USA") [berlinDoc] = [berlinDoc]
    ∧ search true "founders in ny" (fun _ _ => [berlinDoc]) stubGen stubStore
        = .ok [berlinResult]
    ∧ ([berlinResult] : List ResultR) ≠ [] :=
  ⟨rfl, rfl, rfl, rfl, by simp⟩

/-- **C2** (amended).  When no retrieved candidate satisfies the active
location filter, the filtering block substitutes the first 10 unfiltered
candidates instead of yielding the empty set. -/
theorem C2_amended (loc : String) (docs : List Doc)
    (h : docs.filter (fun d => d.location == some loc) = []) :
    filterStep (some loc) docs = docs.take 10 := by
  simp [filterStep, h]

/-- Witness for `C2_amended` on a concrete unmatched candidate list. -/
theorem C2_amended_witness :
    filterStep (some "New York, USA") [berlinDoc] = List.take 10 [berlinDoc] :=
  C2_amended "New York, USA" [berlinDoc] rfl

/-- **C3** (counterexample).  The extractor does return the canonical
location for the alias `"ny"`, but no cleaned query exists: the string passed
to the similarity search (line 452) is the original query, in which the alias
still occurs as a whole word — a retriever that reacts to the alias in its
input observably receives it. -/
theorem C3_counterexample :
    parse_location "founders in ny" = some "New York, USA"
    ∧ retrievalQuery "founders in ny" = "founders in ny"
    ∧ containsWord "ny" (pyLower (retrievalQuery "founders in ny")) = true
    ∧ search true "founders in ny"
        (fun q _ => if containsWord "ny" (pyLower q) then [nyDoc] else [])
        stubGen stubStore
        = .ok [berlinResult] :=
  ⟨rfl, rfl, rfl, rfl⟩

/-- **C3** (amended).  For a query containing the alias `"ny"` as a whole
word and no exact canonical location substring, `_parse_location` returns the
canonical `"New York, USA"` (the alias is first in the mapping's iteration
order), but the query string passed to the similarity search is the original
query, unmodified — no alias stripping occurs. -/
theorem C3_amended (q : String)
    (h1 : noExactLocation (pyLower q) = true)
    (h2 : containsWord "ny" (pyLower q) = true) :
    parse_location q = some "New York, USA" ∧ retrievalQuery q = q := by
  refine ⟨?_, rfl⟩
  have hfind :
      AVAILABLE_LOCATIONS.find? (fun loc => strContains (pyLower loc) (pyLower q))
        = none := by
    rw [List.find?_eq_none]
    intro x hx
    have hx2 := List.all_eq_true.mp h1 x hx
    simp only [Bool.not_eq_true'] at hx2
    simp [hx2]
  have hmap :
      LOCATION_MAPPING.find? (fun p => containsWord p.1 (pyLower q))
        = some ("ny", "New York, USA") := by
    unfold LOCATION_MAPPING
    exact List.find?_cons_of_pos _ h2
  show
    (match
        AVAILABLE_LOCATIONS.find? (fun loc => strContains (pyLower loc) (pyLower q)) with
      | some loc => some loc
      | none =>
        (LOCATION_MAPPING.find? (fun p => containsWord p.1 (pyLower q))).map Prod.snd)
      = some "New York, USA"
  rw [hfind, hmap]
  rfl

/-- Witness for `C3_amended` at the query `"founders in ny"`. -/
theorem C3_amended_witness :
    parse_location "founders in ny" = some "New York, USA"
    ∧ retrievalQuery "founders in ny" = "founders in ny" :=
  C3_amended "founders in ny" (by decide) (by decide)

/-- **C4**.  Malformed generator output is non-fatal: whenever the raw
completion, after the strip/fence-strip prelude, fails to parse as JSON, the
search returns the empty result list — the `json.JSONDecodeError` handler at
lines 500-503 absorbs the failure instead of raising. -/
theorem C4_malformed_output_nonfatal (q : String) (retriever : Retriever)
    (store : Store) (raw : String)
    (h : parseJson (stripFences raw) = none) :
    search true q retriever (fun _ _ => raw) store = .ok [] := by
  unfold search
  cases hd :
      (filterStep (parse_location q)
        (retriever (retrievalQuery q) TOP_K_DOCUMENTS)).isEmpty
  · simp [hd, h]
  · simp [hd]

/-- Witness for `C4_malformed_output_nonfatal` on a fenced, truncated
completion. -/
theorem C4_witness :
    parseJson (stripFences "```json\n[\x7b\"csv_id\": ```") = none
    ∧ search true "fintech founders" (fun _ _ => [nyDoc])
        (fun _ _ => "```json\n[\x7b\"csv_id\": ```") stubStore = .ok [] :=
  ⟨rfl, C4_malformed_output_nonfatal "fintech founders" _ _ _ rfl⟩

/-- **C5** (counterexample).  A whitespace-only query is **not** rejected:
`backend/main.py` only rejects the falsy empty string, and the service's
`search` performs no blank-query validation, so the query `" "` flows through
the entire pipeline (vector search, generator, record store) and the request
succeeds with compiled results. -/
theorem C5_counterexample :
    pyStrip " " = ""
    ∧ search_people true " " (fun _ _ => [nyDoc]) stubGen stubStore
        = .ok [berlinResult] :=
  ⟨rfl, rfl⟩

/-- **C5** (amended).  Only the literally empty query string is rejected —
with the 400 "Query cannot be empty" error, before any collaborator can
influence the outcome; a whitespace-only query is processed by the full
pipeline and can return results. -/
theorem C5_amended :
    (∀ (init : Bool) (r : Retriever) (g : Generator) (s : Store),
        search_people init "" r g s = .error (.badRequest "Query cannot be empty"))
    ∧ search_people true " " (fun _ _ => [nyDoc]) stubGen stubStore
        = .ok [berlinResult] :=
  ⟨fun _ _ _ _ => rfl, rfl⟩

/-- **C6** (counterexample).  An *empty* (but existing) vector index and an
*empty* (but existing) `people` table do **not** put the service in the
not-initialized state: `__init__` only checks existence (lines 356-374), so
`is_initialized` becomes true and a subsequent search is served normally
(here degrading silently to zero results) instead of failing with the
not-initialized error. -/
theorem C6_counterexample :
    initService
        { chroma_db_exists := true, chroma_count := 0, sqlite_exists := true,
          people_table := some 0, api_key := true } = true
    ∧ search true "any query" (fun _ _ => []) stubGen stubStore = .ok [] :=
  ⟨rfl, rfl⟩

/-- **C6** (amended).  Fail-fast applies to *absence* only: a missing Chroma
directory, missing SQLite file, missing `people` table or missing API key
leaves the service not-initialized, and every search against a
not-initialized service fails immediately with the not-initialized error;
but an empty index or empty table (any counts) initializes normally. -/
theorem C6_amended :
    (∀ (q : String) (r : Retriever) (g : Generator) (s : Store),
        search false q r g s = .error .notInit)
    ∧ (∀ e : Env,
        e.chroma_db_exists = false ∨ e.sqlite_exists = false
          ∨ e.people_table = none ∨ e.api_key = false →
        initService e = false)
    ∧ (∀ (cnt pc : Nat),
        initService
          { chroma_db_exists := true, chroma_count := cnt, sqlite_exists := true,
            people_table := some pc, api_key := true } = true) := by
  refine ⟨fun _ _ _ _ => rfl, ?_, fun _ _ => rfl⟩
  rintro ⟨c, cc, s, pt, k⟩ h
  cases c <;> cases s <;> cases k <;> cases pt <;> simp_all [initService]

/-- Witness for `C6_amended`: a missing Chroma directory leaves the service
not-initialized, and a not-initialized service rejects a concrete search. -/
theorem C6_amended_witness :
    initService
        { chroma_db_exists := false, chroma_count := 3, sqlite_exists := true,
          people_table := some 5, api_key := true } = false
    ∧ search false "q" (fun _ _ => [nyDoc]) stubGen stubStore = .error .notInit :=
  ⟨C6_amended.2.1 _ (Or.inl rfl), C6_amended.1 "q" _ _ _⟩

/-- Helper: a successful run of the compilation loop produces at most one
result per processed match. -/
theorem compileLoop_length_le (store : Store) :
    ∀ (ms : List Json) (rs : List ResultR),
      compileLoop store ms = .ok rs → rs.length ≤ ms.length := by
  intro ms
  induction ms with
  | nil =>
    intro rs h
    cases h
    simp
  | cons m rest ih =>
    intro rs h
    cases m with
    | obj kvs =>
      simp only [compileLoop] at h
      cases hco : compileOne store kvs with
      | none =>
        rw [hco] at h
        exact Nat.le_trans (ih rs h) (Nat.le_succ _)
      | some r =>
        rw [hco] at h
        cases hcl : compileLoop store rest with
        | error e => rw [hcl] at h; cases h
        | ok rs2 =>
          rw [hcl] at h
          cases h
          simpa using Nat.succ_le_succ (ih rs2 hcl)
    | null => cases h
    | bool b => cases h
    | num lex => cases h
    | str s => cases h
    | arr xs => cases h

/-- Helper: on a list of decoded objects the compilation loop is exactly an
order-preserving `filterMap` of the per-match compilation. -/
theorem compileLoop_obj (store : Store) :
    ∀ objs : List (List (String × Json)),
      compileLoop store (objs.map Json.obj)
        = .ok (objs.filterMap (compileOne store)) := by
  intro objs
  induction objs with
  | nil => rfl
  | cons kvs rest ih =>
    simp only [List.map_cons, List.filterMap_cons, compileLoop]
    cases hco : compileOne store kvs with
    | none => simpa using ih
    | some r => rw [ih]; rfl

/-- **C7**.  Result compilation: the loop processes the matches in generator
order, truncated to the first 5; a run that succeeds yields at most 5
results; on object matches it is exactly an order-preserving `filterMap` (no
re-sorting); a match with a missing or empty identifier is skipped without
error, as is one whose identifier the record store does not resolve; and a
match without an explanation field gets the generic placeholder string. -/
theorem C7_result_compilation :
    (∀ (store : Store) (ms : List Json) (rs : List ResultR),
        compileLoop store (ms.take 5) = .ok rs → rs.length ≤ 5)
    ∧ (∀ (store : Store) (objs : List (List (String × Json))),
        compileLoop store ((objs.map Json.obj).take 5)
          = .ok ((objs.take 5).filterMap (compileOne store)))
    ∧ (∀ (store : Store) (kvs : List (String × Json)),
        jget kvs "csv_id" = none → compileOne store kvs = none)
    ∧ (∀ (store : Store) (kvs : List (String × Json)),
        jget kvs "csv_id" = some (.str "") → compileOne store kvs = none)
    ∧ (∀ (store : Store) (kvs : List (String × Json)) (v : Json),
        jget kvs "csv_id" = some v → store v = none → compileOne store kvs = none)
    ∧ (∀ (store : Store) (kvs : List (String × Json)) (r : ResultR),
        jget kvs "match_explanation" = none → compileOne store kvs = some r →
          r.match_explanation = .str "Match found based on profile.") := by
  refine ⟨?_, ?_, ?_, ?_, ?_, ?_⟩
  · intro store ms rs h
    exact Nat.le_trans (compileLoop_length_le store _ _ h)
      (by simp [List.length_take])
  · intro store objs
    rw [← List.map_take, compileLoop_obj]
  · intro store kvs h
    simp [compileOne, h]
  · intro store kvs h
    have ht : truthy (.str "") = false := by decide
    simp [compileOne, h, ht]
  · intro store kvs v h hs
    by_cases ht : truthy v <;> simp [compileOne, h, hs, ht]
  · intro store kvs r h1 h2
    unfold compileOne at h2
    split at h2
    · cases h2
    · split at h2
      · cases h2
      · split at h2
        · cases h2
        · split at h2
          · cases h2
          · cases h2
            simp [jgetD, h1]

/-- Witness for `C7_result_compilation`: each conjunct applied at concrete
matches against the stub store. -/
theorem C7_witness :
    ([berlinNoExpl] : List ResultR).length ≤ 5
    ∧ compileLoop stubStore
        (([[("csv_id", Json.str "p2")]].map Json.obj).take 5)
        = .ok (([[("csv_id", Json.str "p2")]].take 5).filterMap (compileOne stubStore))
    ∧ compileOne stubStore [] = none
    ∧ compileOne stubStore [("csv_id", .str "")] = none
    ∧ compileOne stubStore [("csv_id", .str "unknown-id")] = none
    ∧ berlinNoExpl.match_explanation = .str "Match found based on profile." :=
  ⟨C7_result_compilation.1 stubStore [Json.obj [("csv_id", Json.str "p2")]]
      [berlinNoExpl] rfl,
   C7_result_compilation.2.1 stubStore [[("csv_id", Json.str "p2")]],
   C7_result_compilation.2.2.1 stubStore [] rfl,
   C7_result_compilation.2.2.2.1 stubStore [("csv_id", .str "")] rfl,
   C7_result_compilation.2.2.2.2.1 stubStore [("csv_id", .str "unknown-id")]
      (.str "unknown-id") rfl rfl,
   C7_result_compilation.2.2.2.2.2 stubStore [("csv_id", .str "p2")]
      berlinNoExpl rfl rfl⟩

/-- **C8**.  Empty-retrieval short-circuit: when the vector store returns no
documents for the query, the pipeline returns the empty result list for
*every* generator — the generator is never consulted (line 471-472 returns
before the chain is invoked). -/
theorem C8_empty_retrieval_short_circuit (q : String) (retriever : Retriever)
    (gen : Generator) (store : Store)
    (h : retriever (retrievalQuery q) TOP_K_DOCUMENTS = []) :
    search true q retriever gen store = .ok [] := by
  unfold search
  rw [h]
  cases parse_location q <;> rfl

/-- Witness for `C8_empty_retrieval_short_circuit` with a concrete empty
retriever. -/
theorem C8_witness :
    search true "robotics founders" (fun _ _ => []) stubGen stubStore = .ok [] :=
  C8_empty_retrieval_short_circuit "robotics founders" _ _ _ rfl

/-- **C9**.  Idempotence / no hidden state drift: the search method body
assigns to no service attribute, so as a state transformer it leaves the
service state unchanged, and a second invocation with the same query and the
same (deterministic) collaborator stubs returns the identical result list. -/
theorem C9_idempotent (st : ServiceState) (q : String) (retriever : Retriever)
    (gen : Generator) (store : Store) :
    (searchSt st q retriever gen store).2 = st
    ∧ (searchSt (searchSt st q retriever gen store).2 q retriever gen store).1
        = (searchSt st q retriever gen store).1 :=
  ⟨rfl, rfl⟩

/-- **C10**.  Total result schema: compilation succeeds (is `some`) for every
resolving match whatever fields the stored row lacks, and with a row carrying
none of the projected columns every field of the compiled record takes its
documented default (`"N/A"` for the top-level profile fields, `""` for the
detail fields, `"#"` for `linked_in`), while `id`, `provenance` and
`match_explanation` come from the match itself. -/
theorem C10_total_result_schema :
    (∀ (store : Store) (kvs : List (String × Json)) (v : Json) (row : Row),
        jget kvs "csv_id" = some v → truthy v = true → store v = some row →
        row ≠ [] → (compileOne store kvs).isSome = true)
    ∧ (∀ (id expl : String) (store : Store),
        store (.str id) = some [("id", SqlVal.vtext id)] → id ≠ "" →
          compileOne store [("csv_id", .str id), ("match_explanation", .str expl)]
            = some
                { id := .str id, founder_name := .vtext "N/A", role := .vtext "N/A",
                  company := .vtext "N/A", location := .vtext "N/A",
                  match_explanation := .str expl,
                  matched_on_fields := "idea, about, keywords, location",
                  prov_csv_id := .str id, fd_idea := .vtext "", fd_about := .vtext "",
                  fd_keywords := .vtext "", fd_linked_in := .vtext "#",
                  fd_notes := .vtext "", fd_stage := .vtext "" }) := by
  constructor
  · intro store kvs v row hg ht hs hrow
    have hre : row.isEmpty = false := by
      simp [List.isEmpty_eq_false, hrow]
    simp [compileOne, hg, ht, hs, hre]
  · intro id expl store hs hid
    have hne : (String.isEmpty id) = false :=
      Bool.eq_false_iff.mpr (fun hb => hid ((String.isEmpty_iff id).mp hb))
    simp [compileOne, jget, jgetD, truthy, hne, hs, rowGet]

/-- Witness for `C10_total_result_schema` at a store row that carries only
its primary key. -/
theorem C10_witness :
    (compileOne
        (fun j => match j with
          | Json.str "p7" => some [("id", SqlVal.vtext "p7")]
          | _ => none)
        [("csv_id", .str "p7"), ("match_explanation", .str "ok")]).isSome = true
    ∧ compileOne
        (fun j => match j with
          | Json.str "p7" => some [("id", SqlVal.vtext "p7")]
          | _ => none)
        [("csv_id", .str "p7"), ("match_explanation", .str "ok")]
        = some
            { id := .str "p7", founder_name := .vtext "N/A", role := .vtext "N/A",
              company := .vtext "N/A", location := .vtext "N/A",
              match_explanation := .str "ok",
              matched_on_fields := "idea, about, keywords, location",
              prov_csv_id := .str "p7", fd_idea := .vtext "", fd_about := .vtext "",
              fd_keywords := .vtext "", fd_linked_in := .vtext "#",
              fd_notes := .vtext "", fd_stage := .vtext "" } :=
  ⟨C10_total_result_schema.1 _ [("csv_id", .str "p7"), ("match_explanation", .str "ok")]
      (.str "p7") [("id", SqlVal.vtext "p7")] rfl rfl rfl (by decide),
   C10_total_result_schema.2 "p7" "ok" _ rfl (by decide)⟩

end RagApp

